import Mathlib

/-!
Shallow embedding of the Buechi temperature controller driver
(src/btc/btc.py): the protocol engine (query), the value codec
(parameter formatting) and the sampling loop (log_csv), modelled over a
scripted transport that records a trace of transport and file events.
Bytes are modelled as strings of characters (all protocol content is
ASCII, so decoding is the identity).
-/

namespace Btc

/-- Observable effects of the engine against the transport and log file:
serial writes, terminated reads, sleeps (in seconds), buffer resets,
closing, csv row writes and file flushes. -/
inductive Event where
  | write (data : String)
  | readUntil (term : String) (result : String)
  | sleep (seconds : ℚ)
  | resetOutputBuffer
  | resetInputBuffer
  | close
  | fileWriteRow (row : List String)
  | fileFlush
  deriving DecidableEq

/-- A parameter passed to query: Python int or float (the float value is
taken as the exact rational the caller wrote). -/
inductive PyNum where
  | int (n : ℤ)
  | float (q : ℚ)
  deriving DecidableEq

/-- Errors query can raise: a StatusError carrying the decoded status
text, or the ValueError raised by integer formatting of a non-integer. -/
inductive QueryError where
  | statusError (msg : String)
  | valueError
  deriving DecidableEq

/-- Whitespace characters removed by the Python str.strip method. -/
def isPyWhitespace (c : Char) : Bool :=
  c == ' ' || c == '\t' || c == '\n' || c == '\r' ||
    c == Char.ofNat 11 || c == Char.ofNat 12

/-- Python str.strip: remove leading and trailing whitespace. -/
def pyStrip (s : String) : String :=
  ⟨((s.data.dropWhile isPyWhitespace).reverse.dropWhile isPyWhitespace).reverse⟩

/-- Whether a character list begins with a given pattern. -/
def startsWithChars : List Char → List Char → Bool
  | _, [] => true
  | [], _ :: _ => false
  | c :: cs, p :: ps => c == p && startsWithChars cs ps

/-- Python bytes.startswith on the string model. -/
def pyStartsWith (s pat : String) : Bool :=
  startsWithChars s.data pat.data

/-- Whether a character list contains a pattern as a contiguous run. -/
def hasSubChars (pat : List Char) : List Char → Bool
  | [] => pat.isEmpty
  | c :: cs => startsWithChars (c :: cs) pat || hasSubChars pat cs

/-- Python substring containment test (pat in s). -/
def pyContainsSub (s pat : String) : Bool :=
  hasSubChars pat.data s.data

/-- Decimal digit character for a value below ten. -/
def digitChar (d : Nat) : Char := Char.ofNat (48 + d)

/-- Decimal digits of a natural number, most significant first; the
fuel argument bounds the recursion and any fuel at least the number
itself is enough. -/
def natDigits : Nat → Nat → List Char
  | 0, _ => []
  | _ + 1, 0 => []
  | fuel + 1, n + 1 => natDigits fuel ((n + 1) / 10) ++ [digitChar ((n + 1) % 10)]

/-- Base-10 rendering of a natural number without sign. -/
def natStr (n : Nat) : String :=
  if n = 0 then "0" else ⟨natDigits n n⟩

/-- Python integer formatting (the d format code) for an integer. -/
def intStr : ℤ → String
  | Int.ofNat n => natStr n
  | Int.negSucc n => "-" ++ natStr (n + 1)

/-- Round a rational to the nearest integer, ties to even, as Python
float formatting does. -/
def roundHalfEven (x : ℚ) : ℤ :=
  if x - Int.floor x < 1 / 2 then Int.floor x
  else if x - Int.floor x > 1 / 2 then Int.floor x + 1
  else if Int.floor x % 2 = 0 then Int.floor x else Int.floor x + 1

/-- Render an integer number of tenths as a decimal string with exactly
one digit after the decimal point. -/
def oneDecimalOfInt (m : ℤ) : String :=
  (if m < 0 then "-" else "") ++ natStr (m.natAbs / 10) ++ "." ++
    String.mk [digitChar (m.natAbs % 10)]

/-- Python fixed-point formatting with one decimal (the .1f format
code) of a parameter. -/
def format1f : PyNum → String
  | PyNum.int n => intStr n ++ ".0"
  | PyNum.float q => oneDecimalOfInt (roundHalfEven (q * 10))

/-- Python integer formatting (the d format code) of a parameter; a
float raises ValueError, giving none. -/
def pyFormatD : PyNum → Option String
  | PyNum.int n => some (intStr n)
  | PyNum.float _ => none

/-- One read_until call against the scripted transport: take the next
scripted chunk, or the empty string on an exhausted script (timeout). -/
def doRead : List String → String × List String
  | [] => ("", [])
  | r :: rest => (r, rest)

/-- Result of one query call: the returned value or raised error, the
trace of events performed before returning or raising, and the
remaining transport script. -/
structure QueryRun where
  outcome : Except QueryError (Option String)
  events : List Event
  script : List String

/-- The shared tail of query: sleep 50 ms, write the status probe, read
the status line, raise StatusError when it begins with a minus byte. -/
def finishStatus (resp : Option String) (ev0 : List Event) (script : List String) :
    QueryRun :=
  let rd := doRead script
  let events := ev0 ++
    [Event.sleep (1 / 20), Event.write "status\r", Event.readUntil "\r\n" rd.1]
  if pyStartsWith rd.1 "-" then
    ⟨Except.error (QueryError.statusError rd.1), events, rd.2⟩
  else
    ⟨Except.ok resp, events, rd.2⟩

/-- The query method of BuchiTemperatureController, traced against a
scripted transport. With no parameter it writes the command, reads and
strips the response; with a parameter it formats per the sp rule and
writes; then it always runs the status tail. Integer formatting of a
float raises ValueError before anything is written. -/
def query (command : String) (param : Option PyNum) (script : List String) :
    QueryRun :=
  match param with
  | none =>
      let rd := doRead script
      finishStatus (some (pyStrip rd.1))
        [Event.write (command ++ "\r"), Event.readUntil "\r\n" rd.1] rd.2
  | some p =>
      if pyContainsSub command "sp" then
        finishStatus none
          [Event.write (command ++ " " ++ format1f p ++ "\r")] script
      else
        match pyFormatD p with
        | some ds =>
            finishStatus none
              [Event.write (command ++ " " ++ ds ++ "\r")] script
        | none => ⟨Except.error QueryError.valueError, [], script⟩

/-- The raw bytes the status probe of a query call reads: the second
scripted chunk when a primary response was read first, else the first. -/
def statusBytes (param : Option PyNum) (script : List String) : String :=
  match param with
  | none => (doRead (doRead script).2).1
  | some _ => (doRead script).1

/-- Whether formatting of the given parameter succeeds, so that the
call reaches the transmission and status probe. -/
def paramFormats (command : String) : Option PyNum → Bool
  | none => true
  | some (PyNum.int _) => true
  | some (PyNum.float _) => pyContainsSub command "sp"

/-- Whether a query run raised a StatusError. -/
def raisesStatusError (r : QueryRun) : Bool :=
  match r.outcome with
  | Except.error (QueryError.statusError _) => true
  | _ => false

/-- Environment of one sampling-loop iteration: the timestamp string
datetime.now().isoformat() yields and the measured elapsed time t1 - t0
of the cycle in seconds. -/
structure IterEnv where
  timestamp : String
  elapsed : ℚ
  deriving DecidableEq

/-- The fixed csv header row written once per log_csv invocation. -/
def csvHeader : List String :=
  ["Timestamp", "Power [%]", "T-J [°C]", "T-R [°C]", "T-S [°C]"]

/-- The four reading commands one loop iteration issues, in evaluation
order of the row: heating_power, temp_tj, temp_tr, temp_ts. -/
def readingCommands : List String :=
  ["in_pv_01", "in_pv_00", "in_pv_02", "in_pv_03"]

/-- Sleep duration of one iteration: max(timestep - elapsed, 0). -/
def sleepDur (timestep elapsed : ℚ) : ℚ :=
  max (timestep - elapsed) 0

/-- Result of running a sequence of parameterless queries: the decoded
values or the first raised error, the accumulated trace, and the
remaining script. -/
structure RunResult where
  outcome : Except QueryError (List String)
  events : List Event
  script : List String

/-- Run the given commands in order through query, stopping at the
first raised error, as the row construction in log_csv does. -/
def runQueries : List String → List String → RunResult
  | [], script => ⟨Except.ok [], [], script⟩
  | c :: cs, script =>
      let r := query c none script
      match r.outcome with
      | Except.error e => ⟨Except.error e, r.events, r.script⟩
      | Except.ok v =>
          let rest := runQueries cs r.script
          match rest.outcome with
          | Except.error e => ⟨Except.error e, r.events ++ rest.events, rest.script⟩
          | Except.ok vs => ⟨Except.ok (v.getD "" :: vs), r.events ++ rest.events, rest.script⟩

/-- How a log_csv run ends: by the KeyboardInterrupt being re-raised,
or by an error from query propagating out of the loop. -/
inductive LoopExit where
  | interrupted
  | raised (e : QueryError)
  deriving DecidableEq

/-- The sampling loop of log_csv. Each provided IterEnv is one
completed iteration: query the four readings, append the row, sleep for
the remainder of the timestep. When the iterations are exhausted the
KeyboardInterrupt arrives; its handler sleeps 50 ms, resets the output
then the input buffer, and re-raises. A StatusError is not caught and
propagates immediately. -/
def logCsvGo (timestep : ℚ) : List IterEnv → List String → LoopExit × List Event
  | [], _ =>
      (LoopExit.interrupted,
        [Event.sleep (1 / 20), Event.resetOutputBuffer, Event.resetInputBuffer])
  | env :: rest, script =>
      let r := runQueries readingCommands script
      match r.outcome with
      | Except.error e => (LoopExit.raised e, r.events)
      | Except.ok vals =>
          let tail := logCsvGo timestep rest r.script
          (tail.1,
            r.events ++
              [Event.fileWriteRow (env.timestamp :: vals),
                Event.sleep (sleepDur timestep env.elapsed)] ++ tail.2)

/-- The log_csv method: write the header row, then run the sampling
loop against the scripted transport. -/
def logCsv (timestep : ℚ) (iters : List IterEnv) (script : List String) :
    LoopExit × List Event :=
  let r := logCsvGo timestep iters script
  (r.1, Event.fileWriteRow csvHeader :: r.2)

/-- Transport-only events: serial writes, reads and sleeps. -/
def isTransportEv : Event → Bool
  | Event.write _ => true
  | Event.readUntil _ _ => true
  | Event.sleep _ => true
  | _ => false

/-- Serial write events. -/
def isWriteEv : Event → Bool
  | Event.write _ => true
  | _ => false

/-- Sleep events. -/
def isSleepEv : Event → Bool
  | Event.sleep _ => true
  | _ => false

/-- Read events. -/
def isReadEv : Event → Bool
  | Event.readUntil _ _ => true
  | _ => false

theorem strData_append (s t : String) : (s ++ t).data = s.data ++ t.data := rfl

theorem digitChar_isDigit (d : Nat) (h : d < 10) : (digitChar d).isDigit = true := by
  interval_cases d <;> decide

theorem mem_natDigits_isDigit :
    ∀ fuel n c, c ∈ natDigits fuel n → c.isDigit = true := by
  intro fuel
  induction fuel with
  | zero => intro n c hc; simp [natDigits] at hc
  | succ fuel ih =>
      intro n c hc
      cases n with
      | zero => simp [natDigits] at hc
      | succ m =>
          simp only [natDigits, List.mem_append, List.mem_singleton] at hc
          rcases hc with hc | hc
          · exact ih _ _ hc
          · subst hc
            exact digitChar_isDigit _ (Nat.mod_lt _ (by norm_num))

theorem dot_not_mem_natStr (n : Nat) : '.' ∉ (natStr n).data := by
  unfold natStr
  split
  · decide
  · intro hmem
    have := mem_natDigits_isDigit n n '.' hmem
    simp [Char.isDigit] at this

theorem dot_not_mem_intStr (n : ℤ) : '.' ∉ (intStr n).data := by
  cases n with
  | ofNat m => exact dot_not_mem_natStr m
  | negSucc m =>
      simp only [intStr, strData_append, List.mem_append]
      intro hmem
      rcases hmem with hc | hc
      · simp at hc
      · exact dot_not_mem_natStr _ hc

theorem roundHalfEven_int (n : ℤ) : roundHalfEven (n : ℚ) = n := by
  unfold roundHalfEven
  rw [Int.floor_intCast]
  rw [if_pos (by norm_num)]

theorem format1f_concrete_12_4 : format1f (PyNum.float (124 / 10)) = "12.4" := by
  have h : ((124 : ℚ) / 10) * 10 = ((124 : ℤ) : ℚ) := by norm_num
  simp only [format1f, h, roundHalfEven_int]
  decide

theorem floor_neg_61_half : Int.floor ((-305 : ℚ) / 100 * 10) = -31 := by
  have h : ((-305 : ℚ) / 100) * 10 = -61 / 2 := by norm_num
  rw [h, Int.floor_eq_iff]
  norm_num

theorem format1f_concrete_neg_3_05 : format1f (PyNum.float (-305 / 100)) = "-3.0" := by
  have hr : roundHalfEven ((-305 : ℚ) / 100 * 10) = -30 := by
    unfold roundHalfEven
    rw [floor_neg_61_half]
    rw [if_neg (by norm_num), if_neg (by norm_num), if_neg (by decide)]
    decide
  simp only [format1f, hr]
  decide

theorem finishStatus_events (resp : Option String) (ev0 : List Event)
    (script : List String) :
    (finishStatus resp ev0 script).events
      = ev0 ++ [Event.sleep (1 / 20), Event.write "status\r",
          Event.readUntil "\r\n" (doRead script).1] := by
  unfold finishStatus
  dsimp only
  split <;> rfl

theorem finishStatus_outcome (resp : Option String) (ev0 : List Event)
    (script : List String) :
    (finishStatus resp ev0 script).outcome
      = if pyStartsWith (doRead script).1 "-" then
          Except.error (QueryError.statusError (doRead script).1)
        else Except.ok resp := by
  unfold finishStatus
  dsimp only
  split <;> simp_all

theorem query_none_events (command : String) (script : List String) :
    (query command none script).events
      = [Event.write (command ++ "\r"), Event.readUntil "\r\n" (doRead script).1,
         Event.sleep (1 / 20), Event.write "status\r",
         Event.readUntil "\r\n" (statusBytes none script)] := by
  simp [query, finishStatus_events, statusBytes]

theorem query_none_outcome (command : String) (script : List String) :
    (query command none script).outcome
      = if pyStartsWith (statusBytes none script) "-" then
          Except.error (QueryError.statusError (statusBytes none script))
        else Except.ok (some (pyStrip (doRead script).1)) := by
  simp [query, finishStatus_outcome, statusBytes]

theorem query_sp_events (command : String) (p : PyNum) (script : List String)
    (h : pyContainsSub command "sp" = true) :
    (query command (some p) script).events
      = [Event.write (command ++ " " ++ format1f p ++ "\r"),
         Event.sleep (1 / 20), Event.write "status\r",
         Event.readUntil "\r\n" (statusBytes (some p) script)] := by
  simp [query, h, finishStatus_events, statusBytes]

theorem query_sp_outcome (command : String) (p : PyNum) (script : List String)
    (h : pyContainsSub command "sp" = true) :
    (query command (some p) script).outcome
      = if pyStartsWith (statusBytes (some p) script) "-" then
          Except.error (QueryError.statusError (statusBytes (some p) script))
        else Except.ok none := by
  simp [query, h, finishStatus_outcome, statusBytes]

theorem query_int_events (command : String) (n : ℤ) (script : List String)
    (h : pyContainsSub command "sp" = false) :
    (query command (some (PyNum.int n)) script).events
      = [Event.write (command ++ " " ++ intStr n ++ "\r"),
         Event.sleep (1 / 20), Event.write "status\r",
         Event.readUntil "\r\n" (statusBytes (some (PyNum.int n)) script)] := by
  simp [query, h, pyFormatD, finishStatus_events, statusBytes]

theorem query_int_outcome (command : String) (n : ℤ) (script : List String)
    (h : pyContainsSub command "sp" = false) :
    (query command (some (PyNum.int n)) script).outcome
      = if pyStartsWith (statusBytes (some (PyNum.int n)) script) "-" then
          Except.error (QueryError.statusError (statusBytes (some (PyNum.int n)) script))
        else Except.ok none := by
  simp [query, h, pyFormatD, finishStatus_outcome, statusBytes]

theorem query_float_nonsp (command : String) (q : ℚ) (script : List String)
    (h : pyContainsSub command "sp" = false) :
    query command (some (PyNum.float q)) script
      = ⟨Except.error QueryError.valueError, [], script⟩ := by
  simp [query, h, pyFormatD]

theorem query_events_transport (command : String) (param : Option PyNum)
    (script : List String) :
    ∀ e ∈ (query command param script).events, isTransportEv e = true := by
  intro e he
  match param with
  | none =>
      rw [query_none_events] at he
      fin_cases he <;> rfl
  | some p =>
      by_cases hsp : pyContainsSub command "sp" = true
      · rw [query_sp_events command p script hsp] at he
        fin_cases he <;> rfl
      · match p with
        | PyNum.int n =>
            rw [query_int_events command n script (by simpa using hsp)] at he
            fin_cases he <;> rfl
        | PyNum.float q =>
            rw [query_float_nonsp command q script (by simpa using hsp)] at he
            simp at he

theorem runQueries_cons (c : String) (cs : List String) (script : List String) :
    runQueries (c :: cs) script
      = match (query c none script).outcome with
        | Except.error e =>
            ⟨Except.error e, (query c none script).events, (query c none script).script⟩
        | Except.ok v =>
            match (runQueries cs (query c none script).script).outcome with
            | Except.error e =>
                ⟨Except.error e,
                  (query c none script).events ++ (runQueries cs (query c none script).script).events,
                  (runQueries cs (query c none script).script).script⟩
            | Except.ok vs =>
                ⟨Except.ok (v.getD "" :: vs),
                  (query c none script).events ++ (runQueries cs (query c none script).script).events,
                  (runQueries cs (query c none script).script).script⟩ := rfl

theorem runQueries_events_transport (cs : List String) (script : List String) :
    ∀ e ∈ (runQueries cs script).events, isTransportEv e = true := by
  induction cs generalizing script with
  | nil => intro e he; simp [runQueries] at he
  | cons c cs ih =>
      intro e he
      rw [runQueries_cons] at he
      rcases hq : (query c none script).outcome with eq | v <;> rw [hq] at he
      · exact query_events_transport c none script e he
      · rcases hr : (runQueries cs (query c none script).script).outcome with eq | vs <;>
          rw [hr] at he <;>
          dsimp only at he <;>
          rcases List.mem_append.mp he with h1 | h1
        · exact query_events_transport c none script e h1
        · exact ih _ e h1
        · exact query_events_transport c none script e h1
        · exact ih _ e h1

/-- C1: for every command and parameter whose formatting succeeds (so
that the call reaches the probe), query raises StatusError exactly when
the bytes read after the status probe begin with a minus byte; the
error carries the decoded status text, and the run never closes the
transport or resets its buffers. -/
theorem query_statusError_iff (command : String) (param : Option PyNum)
    (script : List String) (h : paramFormats command param = true) :
    raisesStatusError (query command param script)
        = pyStartsWith (statusBytes param script) "-"
    ∧ (pyStartsWith (statusBytes param script) "-" = true →
        (query command param script).outcome
          = Except.error (QueryError.statusError (statusBytes param script)))
    ∧ Event.close ∉ (query command param script).events
    ∧ Event.resetOutputBuffer ∉ (query command param script).events
    ∧ Event.resetInputBuffer ∉ (query command param script).events := by
  have hmem : ∀ ev : Event, isTransportEv ev = false →
      ev ∉ (query command param script).events := by
    intro ev hev hin
    have := query_events_transport command param script ev hin
    rw [hev] at this
    exact Bool.noConfusion this
  refine ⟨?_, ?_, hmem _ rfl, hmem _ rfl, hmem _ rfl⟩ <;>
  · match param with
    | none =>
        cases hS : pyStartsWith (statusBytes none script) "-" <;>
          simp [raisesStatusError, query_none_outcome, hS]
    | some p =>
        by_cases hsp : pyContainsSub command "sp" = true
        · cases hS : pyStartsWith (statusBytes (some p) script) "-" <;>
            simp [raisesStatusError, query_sp_outcome command p script hsp, hS]
        · match p with
          | PyNum.int n =>
              cases hS : pyStartsWith (statusBytes (some (PyNum.int n)) script) "-" <;>
                simp [raisesStatusError,
                  query_int_outcome command n script (by simpa using hsp), hS]
          | PyNum.float q =>
              rw [paramFormats] at h
              exact absurd h hsp

theorem query_statusError_iff_witness :
    raisesStatusError (query "in_pv_00" none ["24.04\r\n", "-01 bad\r\n"])
        = pyStartsWith (statusBytes none ["24.04\r\n", "-01 bad\r\n"]) "-"
    ∧ (pyStartsWith (statusBytes none ["24.04\r\n", "-01 bad\r\n"]) "-" = true →
        (query "in_pv_00" none ["24.04\r\n", "-01 bad\r\n"]).outcome
          = Except.error (QueryError.statusError
              (statusBytes none ["24.04\r\n", "-01 bad\r\n"])))
    ∧ Event.close ∉ (query "in_pv_00" none ["24.04\r\n", "-01 bad\r\n"]).events
    ∧ Event.resetOutputBuffer ∉ (query "in_pv_00" none ["24.04\r\n", "-01 bad\r\n"]).events
    ∧ Event.resetInputBuffer ∉ (query "in_pv_00" none ["24.04\r\n", "-01 bad\r\n"]).events :=
  query_statusError_iff "in_pv_00" none ["24.04\r\n", "-01 bad\r\n"] rfl

/-- C2: every query call whose parameter formatting succeeds produces a
trace ending in the 50 ms pause, the single status probe write and the
status read; before that suffix there is exactly one serial write (the
primary transmission) and no sleep, so the probe is written exactly
once, after the primary transmission and after the fixed pause. -/
theorem query_one_status_probe (command : String) (param : Option PyNum)
    (script : List String) (h : paramFormats command param = true) :
    ∃ pre, (query command param script).events
        = pre ++ [Event.sleep (1 / 20), Event.write "status\r",
            Event.readUntil "\r\n" (statusBytes param script)]
      ∧ (pre.filter isWriteEv).length = 1
      ∧ pre.filter isSleepEv = [] := by
  match param with
  | none =>
      refine ⟨[Event.write (command ++ "\r"),
        Event.readUntil "\r\n" (doRead script).1], ?_, ?_, ?_⟩
      · rw [query_none_events]
        rfl
      · simp [isWriteEv]
      · simp [isSleepEv]
  | some p =>
      by_cases hsp : pyContainsSub command "sp" = true
      · refine ⟨[Event.write (command ++ " " ++ format1f p ++ "\r")], ?_, ?_, ?_⟩
        · rw [query_sp_events command p script hsp]
          rfl
        · simp [isWriteEv]
        · simp [isSleepEv]
      · match p with
        | PyNum.int n =>
            refine ⟨[Event.write (command ++ " " ++ intStr n ++ "\r")], ?_, ?_, ?_⟩
            · rw [query_int_events command n script (by simpa using hsp)]
              rfl
            · simp [isWriteEv]
            · simp [isSleepEv]
        | PyNum.float q =>
            rw [paramFormats] at h
            exact absurd h hsp

theorem query_one_status_probe_witness :
    ∃ pre, (query "out_mode_05" (some (PyNum.int 1)) ["ok\r\n"]).events
        = pre ++ [Event.sleep (1 / 20), Event.write "status\r",
            Event.readUntil "\r\n" (statusBytes (some (PyNum.int 1)) ["ok\r\n"])]
      ∧ (pre.filter isWriteEv).length = 1
      ∧ pre.filter isSleepEv = [] :=
  query_one_status_probe "out_mode_05" (some (PyNum.int 1)) ["ok\r\n"] rfl

/-- C3: a parameterless query produces exactly the trace primary write,
primary read, pause, status write, status read; in particular the
primary response read precedes the status probe write in the trace. -/
theorem query_reads_response_before_probe (command : String) (script : List String) :
    (query command none script).events
      = [Event.write (command ++ "\r"), Event.readUntil "\r\n" (doRead script).1,
         Event.sleep (1 / 20), Event.write "status\r",
         Event.readUntil "\r\n" (statusBytes none script)]
    ∧ ∃ pre mid post,
        (query command none script).events
          = pre ++ Event.readUntil "\r\n" (doRead script).1 :: mid
              ++ Event.write "status\r" :: post := by
  refine ⟨query_none_events command script,
    [Event.write (command ++ "\r")], [Event.sleep (1 / 20)],
    [Event.readUntil "\r\n" (statusBytes none script)], ?_⟩
  rw [query_none_events]
  rfl

/-- C4: for a command containing sp and a parameter, the primary
transmission consists of the command, a space, the parameter rendered
with exactly one digit after the decimal point, and a carriage return;
the rendering has exactly one decimal point followed by one digit, and
on the concrete inputs 12, 12.4, -3.05 and 0 it yields 12.0, 12.4, -3.0
and 0.0. -/
theorem query_sp_param_format (command : String) (p : PyNum) (script : List String)
    (h : pyContainsSub command "sp" = true) :
    (query command (some p) script).events
      = [Event.write (command ++ " " ++ format1f p ++ "\r"),
         Event.sleep (1 / 20), Event.write "status\r",
         Event.readUntil "\r\n" (statusBytes (some p) script)]
    ∧ (∃ pre d, (format1f p).data = pre ++ ['.', d] ∧ d.isDigit = true ∧ '.' ∉ pre)
    ∧ format1f (PyNum.int 12) = "12.0"
    ∧ format1f (PyNum.float (124 / 10)) = "12.4"
    ∧ format1f (PyNum.float (-305 / 100)) = "-3.0"
    ∧ format1f (PyNum.int 0) = "0.0" := by
  refine ⟨query_sp_events command p script h, ?_, rfl,
    format1f_concrete_12_4, format1f_concrete_neg_3_05, rfl⟩
  match p with
  | PyNum.int n =>
      refine ⟨(intStr n).data, '0', ?_, by decide, dot_not_mem_intStr n⟩
      rw [format1f, strData_append]
  | PyNum.float q =>
      refine ⟨((if roundHalfEven (q * 10) < 0 then "-" else "") : String).data
          ++ (natStr ((roundHalfEven (q * 10)).natAbs / 10)).data,
        digitChar ((roundHalfEven (q * 10)).natAbs % 10), ?_,
        digitChar_isDigit _ (Nat.mod_lt _ (by norm_num)), ?_⟩
      · rw [format1f]
        unfold oneDecimalOfInt
        simp [strData_append]
      · intro hd
        rcases List.mem_append.mp hd with h1 | h1
        · by_cases hm : roundHalfEven (q * 10) < 0
          · rw [if_pos hm] at h1
            simp at h1
          · rw [if_neg hm] at h1
            simp at h1
        · exact dot_not_mem_natStr _ h1

theorem query_sp_param_format_witness :
    (query "out_sp_00" (some (PyNum.float (124 / 10))) ["ok\r\n"]).events
      = [Event.write ("out_sp_00" ++ " " ++ format1f (PyNum.float (124 / 10)) ++ "\r"),
         Event.sleep (1 / 20), Event.write "status\r",
         Event.readUntil "\r\n" (statusBytes (some (PyNum.float (124 / 10))) ["ok\r\n"])]
    ∧ (∃ pre d, (format1f (PyNum.float (124 / 10))).data = pre ++ ['.', d]
        ∧ d.isDigit = true ∧ '.' ∉ pre)
    ∧ format1f (PyNum.int 12) = "12.0"
    ∧ format1f (PyNum.float (124 / 10)) = "12.4"
    ∧ format1f (PyNum.float (-305 / 100)) = "-3.0"
    ∧ format1f (PyNum.int 0) = "0.0" :=
  query_sp_param_format "out_sp_00" (PyNum.float (124 / 10)) ["ok\r\n"] (by decide)

/-- C5: for a command not containing sp and an integer parameter, the
primary transmission is the command, a space, the base-10 integer form
(no decimal point) and a carriage return; the only read in the trace is
the status read (no primary response is read), and on a non-error
status the call returns none. -/
theorem query_nonsp_int_param (command : String) (n : ℤ) (script : List String)
    (h : pyContainsSub command "sp" = false) :
    (query command (some (PyNum.int n)) script).events
      = [Event.write (command ++ " " ++ intStr n ++ "\r"),
         Event.sleep (1 / 20), Event.write "status\r",
         Event.readUntil "\r\n" (statusBytes (some (PyNum.int n)) script)]
    ∧ '.' ∉ (intStr n).data
    ∧ (query command (some (PyNum.int n)) script).events.filter isReadEv
        = [Event.readUntil "\r\n" (statusBytes (some (PyNum.int n)) script)]
    ∧ (pyStartsWith (statusBytes (some (PyNum.int n)) script) "-" = false →
        (query command (some (PyNum.int n)) script).outcome = Except.ok none) := by
  refine ⟨query_int_events command n script h, dot_not_mem_intStr n, ?_, ?_⟩
  · rw [query_int_events command n script h]
    simp [isReadEv]
  · intro hS
    rw [query_int_outcome command n script h, if_neg (by simp [hS])]

theorem query_nonsp_int_param_witness :
    (query "out_mode_01" (some (PyNum.int 1)) ["ok\r\n"]).events
      = [Event.write ("out_mode_01" ++ " " ++ intStr 1 ++ "\r"),
         Event.sleep (1 / 20), Event.write "status\r",
         Event.readUntil "\r\n" (statusBytes (some (PyNum.int 1)) ["ok\r\n"])]
    ∧ '.' ∉ (intStr 1).data
    ∧ (query "out_mode_01" (some (PyNum.int 1)) ["ok\r\n"]).events.filter isReadEv
        = [Event.readUntil "\r\n" (statusBytes (some (PyNum.int 1)) ["ok\r\n"])]
    ∧ (pyStartsWith (statusBytes (some (PyNum.int 1)) ["ok\r\n"]) "-" = false →
        (query "out_mode_01" (some (PyNum.int 1)) ["ok\r\n"]).outcome = Except.ok none) :=
  query_nonsp_int_param "out_mode_01" 1 ["ok\r\n"] (by decide)

/-- C10: for a command not containing sp and a float parameter, query
raises the formatting ValueError before anything is transmitted: the
trace is empty (no command and no status probe written) and the
transport script is untouched. -/
theorem query_nonsp_float_raises (command : String) (q : ℚ) (script : List String)
    (h : pyContainsSub command "sp" = false) :
    (query command (some (PyNum.float q)) script).outcome
        = Except.error QueryError.valueError
    ∧ (query command (some (PyNum.float q)) script).events = []
    ∧ (query command (some (PyNum.float q)) script).script = script := by
  rw [query_float_nonsp command q script h]
  exact ⟨rfl, rfl, rfl⟩

theorem query_nonsp_float_raises_witness :
    (query "out_mode_01" (some (PyNum.float (1 / 2))) ["ok\r\n"]).outcome
        = Except.error QueryError.valueError
    ∧ (query "out_mode_01" (some (PyNum.float (1 / 2))) ["ok\r\n"]).events = []
    ∧ (query "out_mode_01" (some (PyNum.float (1 / 2))) ["ok\r\n"]).script = ["ok\r\n"] :=
  query_nonsp_float_raises "out_mode_01" (1 / 2) ["ok\r\n"] (by decide)

theorem logCsvGo_cons (timestep : ℚ) (env : IterEnv) (rest : List IterEnv)
    (script : List String) :
    logCsvGo timestep (env :: rest) script
      = match (runQueries readingCommands script).outcome with
        | Except.error e =>
            (LoopExit.raised e, (runQueries readingCommands script).events)
        | Except.ok vals =>
            ((logCsvGo timestep rest (runQueries readingCommands script).script).1,
              (runQueries readingCommands script).events ++
                [Event.fileWriteRow (env.timestamp :: vals),
                  Event.sleep (sleepDur timestep env.elapsed)] ++
                (logCsvGo timestep rest (runQueries readingCommands script).script).2) := rfl

theorem logCsvGo_no_flush (timestep : ℚ) (iters : List IterEnv) (script : List String) :
    Event.fileFlush ∉ (logCsvGo timestep iters script).2 := by
  induction iters generalizing script with
  | nil => simp [logCsvGo]
  | cons env rest ih =>
      rw [logCsvGo_cons]
      rcases h : (runQueries readingCommands script).outcome with e | vals <;> dsimp only
      · intro hm
        have := runQueries_events_transport readingCommands script _ hm
        simp [isTransportEv] at this
      · intro hm
        rw [List.append_assoc, List.mem_append] at hm
        rcases hm with hm | hm
        · have := runQueries_events_transport readingCommands script _ hm
          simp [isTransportEv] at this
        · rw [List.mem_append] at hm
          rcases hm with hm | hm
          · simp at hm
          · exact ih _ hm

theorem logCsvGo_interrupted (timestep : ℚ) (iters : List IterEnv) (script : List String)
    (h : (logCsvGo timestep iters script).1 = LoopExit.interrupted) :
    ∃ pre, (logCsvGo timestep iters script).2
        = pre ++ [Event.sleep (1 / 20), Event.resetOutputBuffer, Event.resetInputBuffer]
      ∧ Event.resetOutputBuffer ∉ pre
      ∧ Event.resetInputBuffer ∉ pre := by
  induction iters generalizing script with
  | nil => exact ⟨[], rfl, by simp, by simp⟩
  | cons env rest ih =>
      rw [logCsvGo_cons] at h ⊢
      rcases hq : (runQueries readingCommands script).outcome with e | vals <;>
        rw [hq] at h <;> dsimp only at h ⊢
      · simp at h
      · obtain ⟨pre, hpre, hro, hri⟩ := ih (runQueries readingCommands script).script h
        refine ⟨(runQueries readingCommands script).events ++
            [Event.fileWriteRow (env.timestamp :: vals),
              Event.sleep (sleepDur timestep env.elapsed)] ++ pre, ?_, ?_, ?_⟩
        · rw [hpre]
          simp [List.append_assoc]
        · intro hm
          rw [List.append_assoc, List.mem_append] at hm
          rcases hm with hm | hm
          · have := runQueries_events_transport readingCommands script _ hm
            simp [isTransportEv] at this
          · rw [List.mem_append] at hm
            rcases hm with hm | hm
            · simp at hm
            · exact hro hm
        · intro hm
          rw [List.append_assoc, List.mem_append] at hm
          rcases hm with hm | hm
          · have := runQueries_events_transport readingCommands script _ hm
            simp [isTransportEv] at this
          · rw [List.mem_append] at hm
            rcases hm with hm | hm
            · simp at hm
            · exact hri hm

/-- The scripted transport chunks for one sample iteration: four
responses, each followed by a non-error status line. -/
def sampleScript : List String :=
  ["45\r\n", "ok\r\n", "23.5\r\n", "ok\r\n", "23.4\r\n", "ok\r\n", "23.6\r\n", "ok\r\n"]

/-- C6 counterexample: in a concrete one-iteration run, a data row is
appended to the log but no flush event occurs anywhere in the trace, so
the row is not flushed to durable storage before the loop sleeps; the
claimed flush-before-sleep does not happen. -/
theorem logCsv_no_flush_counterexample :
    Event.fileWriteRow ["2024-01-01T00:00:00", "45", "23.5", "23.4", "23.6"]
        ∈ (logCsv 10 [⟨"2024-01-01T00:00:00", 0⟩] sampleScript).2
    ∧ Event.fileFlush ∉ (logCsv 10 [⟨"2024-01-01T00:00:00", 0⟩] sampleScript).2 := by
  constructor
  · decide
  · decide

/-- C6 (amended): in every iteration the LogRecord row (timestamp plus
the four decoded reading strings) is appended to the buffered log file
before the loop sleeps for the remainder of the timestep, but it is not
flushed to durable storage: the code performs no flush at all, leaving
durability to buffer fill and file close. -/
theorem logCsv_append_before_sleep (timestep : ℚ) (iters : List IterEnv)
    (script : List String) :
    Event.fileFlush ∉ (logCsv timestep iters script).2
    ∧ ∀ env rest vals, iters = env :: rest →
        (runQueries readingCommands script).outcome = Except.ok vals →
        (logCsv timestep iters script).2
          = Event.fileWriteRow csvHeader ::
              ((runQueries readingCommands script).events ++
                [Event.fileWriteRow (env.timestamp :: vals),
                  Event.sleep (sleepDur timestep env.elapsed)] ++
                (logCsvGo timestep rest (runQueries readingCommands script).script).2) := by
  constructor
  · intro hm
    rw [logCsv] at hm
    dsimp only at hm
    rcases List.mem_cons.mp hm with hm | hm
    · simp at hm
    · exact logCsvGo_no_flush timestep iters script hm
  · intro env rest vals hiter hok
    subst hiter
    rw [logCsv]
    dsimp only
    rw [logCsvGo_cons, hok]

theorem logCsv_append_before_sleep_witness :
    Event.fileFlush ∉ (logCsv 10 [⟨"t0", 0⟩] sampleScript).2
    ∧ (logCsv 10 [⟨"t0", 0⟩] sampleScript).2
        = Event.fileWriteRow csvHeader ::
            ((runQueries readingCommands sampleScript).events ++
              [Event.fileWriteRow ("t0" :: ["45", "23.5", "23.4", "23.6"]),
                Event.sleep (sleepDur 10 0)] ++
              (logCsvGo 10 [] (runQueries readingCommands sampleScript).script).2) :=
  ⟨(logCsv_append_before_sleep 10 [⟨"t0", 0⟩] sampleScript).1,
    (logCsv_append_before_sleep 10 [⟨"t0", 0⟩] sampleScript).2
      ⟨"t0", 0⟩ [] ["45", "23.5", "23.4", "23.6"] rfl rfl⟩

/-- C7: when the sampling loop is cancelled, the trace ends with the
50 ms pause followed by one output-buffer clear and one input-buffer
clear; neither clear occurs earlier, no row is appended after the
signal (the cleanup suffix contains no row write), and the loop ends by
re-raising the cancellation (the interrupted exit) rather than
absorbing it. -/
theorem logCsv_interrupt_cleanup (timestep : ℚ) (iters : List IterEnv)
    (script : List String)
    (h : (logCsv timestep iters script).1 = LoopExit.interrupted) :
    ∃ pre, (logCsv timestep iters script).2
        = pre ++ [Event.sleep (1 / 20), Event.resetOutputBuffer, Event.resetInputBuffer]
      ∧ Event.resetOutputBuffer ∉ pre
      ∧ Event.resetInputBuffer ∉ pre
      ∧ (∀ row, Event.fileWriteRow row
          ∉ [Event.sleep ((1 : ℚ) / 20), Event.resetOutputBuffer, Event.resetInputBuffer]) := by
  rw [logCsv] at h ⊢
  dsimp only at h ⊢
  obtain ⟨pre, hpre, hro, hri⟩ := logCsvGo_interrupted timestep iters script h
  refine ⟨Event.fileWriteRow csvHeader :: pre, ?_, ?_, ?_, ?_⟩
  · rw [hpre]
    rfl
  · intro hm
    rcases List.mem_cons.mp hm with hm | hm
    · simp at hm
    · exact hro hm
  · intro hm
    rcases List.mem_cons.mp hm with hm | hm
    · simp at hm
    · exact hri hm
  · intro row
    simp

theorem logCsv_interrupt_cleanup_witness :
    ∃ pre, (logCsv 10 [] sampleScript).2
        = pre ++ [Event.sleep (1 / 20), Event.resetOutputBuffer, Event.resetInputBuffer]
      ∧ Event.resetOutputBuffer ∉ pre
      ∧ Event.resetInputBuffer ∉ pre
      ∧ (∀ row, Event.fileWriteRow row
          ∉ [Event.sleep ((1 : ℚ) / 20), Event.resetOutputBuffer, Event.resetInputBuffer]) :=
  logCsv_interrupt_cleanup 10 [] sampleScript rfl

/-- C9: a successful iteration of the sampling loop sleeps for exactly
max(timestep - elapsed, 0) seconds; this amount is never negative, and
at timestep 10 with zero elapsed time it equals 10, which lies within
the interval from 9.9 to 10. -/
theorem logCsv_sleep_amount (timestep : ℚ) (env : IterEnv) (rest : List IterEnv)
    (script : List String) (vals : List String)
    (h : (runQueries readingCommands script).outcome = Except.ok vals) :
    (logCsvGo timestep (env :: rest) script).2
      = (runQueries readingCommands script).events ++
          [Event.fileWriteRow (env.timestamp :: vals),
            Event.sleep (sleepDur timestep env.elapsed)] ++
          (logCsvGo timestep rest (runQueries readingCommands script).script).2
    ∧ sleepDur timestep env.elapsed = max (timestep - env.elapsed) 0
    ∧ 0 ≤ sleepDur timestep env.elapsed
    ∧ (99 : ℚ) / 10 ≤ sleepDur 10 0
    ∧ sleepDur 10 0 ≤ 10 := by
  have h10 : sleepDur 10 0 = 10 := by
    rw [sleepDur]
    norm_num
  refine ⟨?_, rfl, le_max_right _ _, ?_, ?_⟩
  · rw [logCsvGo_cons, h]
  · rw [h10]
    norm_num
  · rw [h10]

theorem logCsv_sleep_amount_witness :
    (logCsvGo 10 [⟨"t0", 0⟩] sampleScript).2
      = (runQueries readingCommands sampleScript).events ++
          [Event.fileWriteRow (("t0" : String) :: ["45", "23.5", "23.4", "23.6"]),
            Event.sleep (sleepDur 10 0)] ++
          (logCsvGo 10 [] (runQueries readingCommands sampleScript).script).2
    ∧ sleepDur 10 0 = max ((10 : ℚ) - 0) 0
    ∧ 0 ≤ sleepDur 10 0
    ∧ (99 : ℚ) / 10 ≤ sleepDur 10 0
    ∧ sleepDur 10 0 ≤ 10 :=
  logCsv_sleep_amount 10 ⟨"t0", 0⟩ [] sampleScript ["45", "23.5", "23.4", "23.6"] rfl

theorem dropWhile_length_le (p : Char → Bool) (l : List Char) :
    (l.dropWhile p).length ≤ l.length := by
  induction l with
  | nil => simp
  | cons a l ih =>
      rw [List.dropWhile_cons]
      split
      · exact le_trans ih (by simp)
      · simp

theorem dropWhile_fix_head (p : Char → Bool) (c : Char) (cs : List Char)
    (h : (c :: cs).dropWhile p = c :: cs) : p c = false := by
  by_contra hc
  rw [List.dropWhile_cons, if_pos (by simpa using hc)] at h
  have := dropWhile_length_le p cs
  rw [h] at this
  simp at this

/-- C8 counterexample: for the scripted response bytes consisting of
the two characters t a, a space, and the terminator, query returns the
two-character string without the trailing space, not the decoded bytes
with exactly the terminator removed (which would keep the space):
Python strip removes the trailing space as well. -/
theorem query_strip_counterexample :
    (query "in_pv_00" none ["ta \r\n", "ok\r\n"]).outcome = Except.ok (some "ta")
    ∧ ("ta" : String) ≠ "ta " := by
  constructor
  · rfl
  · decide

/-- C8 (amended): for a command invoked without a parameter, the value
returned is the decoded primary response with ALL leading and trailing
whitespace removed (Python strip), the terminator included; when the
response is its content followed by the terminator and the content has
no leading or trailing whitespace, exactly the terminator is removed
and the content is returned intact. -/
theorem query_response_stripped (command raw : String) (rest : List String)
    (h : pyStartsWith (statusBytes none (raw :: rest)) "-" = false) :
    (query command none (raw :: rest)).outcome = Except.ok (some (pyStrip raw))
    ∧ (∀ content : String,
        content.data.dropWhile isPyWhitespace = content.data →
        content.data.reverse.dropWhile isPyWhitespace = content.data.reverse →
        pyStrip (content ++ "\r\n") = content) := by
  constructor
  · rw [query_none_outcome, if_neg (by simp [h])]
    rfl
  · intro content h1 h2
    obtain ⟨l⟩ := content
    dsimp only at h1 h2
    cases l with
    | nil => rfl
    | cons c cs =>
        have hc : isPyWhitespace c = false := dropWhile_fix_head _ c cs h1
        unfold pyStrip
        rw [strData_append]
        dsimp only
        have hfront : ((c :: cs) ++ ['\r', '\n']).dropWhile isPyWhitespace
            = (c :: cs) ++ ['\r', '\n'] := by
          rw [List.cons_append, List.dropWhile_cons, if_neg (by simp [hc])]
        rw [hfront, List.reverse_append]
        rw [show (['\r', '\n'] : List Char).reverse = ['\n', '\r'] from rfl]
        simp only [List.cons_append, List.nil_append]
        rw [List.dropWhile_cons, if_pos (by decide), List.dropWhile_cons,
          if_pos (by decide), h2, List.reverse_reverse]

theorem query_response_stripped_witness :
    (query "in_pv_00" none ["24.04\r\n", "ok\r\n"]).outcome
        = Except.ok (some (pyStrip "24.04\r\n"))
    ∧ (∀ content : String,
        content.data.dropWhile isPyWhitespace = content.data →
        content.data.reverse.dropWhile isPyWhitespace = content.data.reverse →
        pyStrip (content ++ "\r\n") = content) :=
  query_response_stripped "in_pv_00" "24.04\r\n" ["ok\r\n"] (by decide)

end Btc
